import Mathlib

/-!
Verification of the RES optimizer (pypop7/optimizers/es/res.py):
Rechenberg's (1+1)-Evolution Strategy with the 1/5th success rule.

The embedding is a shallow state-transition model of `RES.optimize`.
Scalars (fitness values, sigma, thresholds) are real numbers; machine
floating point is abstracted to ℝ.  Randomness is modelled by oracle
streams supplied in the configuration: `normal_draw g` is the standard
normal vector consumed by generation `g`, and `restart_mean k` is the
fresh starting point drawn by the k-th restart.  The ES/Optimizer base
classes are not part of the repository snapshot; the pieces of them that
`res.py` calls (`_evaluate_fitness`, `_initialize_mean`,
`_check_terminations`, `_sigma_bak`, the option fields) are modelled
from the specification and marked as such in their doc comments.
-/

namespace RES

/-- A candidate solution: a vector in R^n (`SearchPoint` of the spec). -/
def Point (n : ℕ) : Type := Fin n → ℝ

/-- Problem/options data and base-collaborator oracles for one run.
`fitness_function`, `eta_sigma`, `sigma0` (the options key `sigma`),
`sigma_threshold`, `stagnation`, `fitness_diff`, `is_restart` and
`record_fitness` are the corresponding attributes read by `res.py`.
`initial_mean` is the options key `mean`.  `restart_mean` and
`normal_draw` are the pseudo-random streams, `check_terminations` the
base termination query (modelled from the spec: a side-effect-free
predicate of the evaluation count; wall-clock time is not modelled). -/
structure Config (n : ℕ) where
  fitness_function : Point n → ℝ
  initial_mean : Point n
  restart_mean : ℕ → Point n
  normal_draw : ℕ → Point n
  check_terminations : ℕ → Bool
  eta_sigma : ℝ
  sigma0 : ℝ
  sigma_threshold : ℝ
  stagnation : ℕ
  fitness_diff : ℝ
  is_restart : Bool
  record_fitness : Bool

/-- The mutable run state: the locals `mean`, `y`, `best_so_far_y` of
`RES.optimize`, the attributes `sigma`, `_n_generations`,
`n_function_evaluations`, `n_restart`, `_fitness_list`, the base-class
attribute `self.best_so_far_y` (field `baseBest`, the best fitness seen
by any evaluation, maintained by `_evaluate_fitness`), the global trace
list `fitness`, and a flag recording that the loop has exited. -/
structure State (n : ℕ) where
  mean : Point n
  y : ℝ
  best_so_far_y : ℝ
  sigma : ℝ
  n_generations : ℕ
  n_function_evaluations : ℕ
  n_restart : ℕ
  baseBest : ℝ
  fitness_list : List ℝ
  fitness : List ℝ
  terminated : Bool

variable {n : ℕ}

/-- Modelled from the spec: the base collaborator's `_evaluate_fitness`
counts the evaluation and tracks the best fitness seen so far (the base
attribute `best_so_far_y`, our field `baseBest`).  The returned fitness
value is `cfg.fitness_function x`. -/
noncomputable def evaluate_fitness (cfg : Config n) (x : Point n) (s : State n) : State n :=
  { s with
    n_function_evaluations := s.n_function_evaluations + 1,
    baseBest :=
      if cfg.fitness_function x < s.baseBest then cfg.fitness_function x else s.baseBest }

/-- Modelled from the spec: the base collaborator's `_initialize_mean`
returns the user-supplied initial mean on a first call and a freshly
drawn restart point on a restart call. -/
def initialize_mean (cfg : Config n) (is_r : Bool) (s : State n) : Point n :=
  if is_r then cfg.restart_mean s.n_restart else cfg.initial_mean

/-- `RES.initialize`: produce the starting mean, evaluate its fitness,
and set `best_so_far_y` to a value-copy of that fitness.  The returned
triple `(mean, y, best_so_far_y)` is stored into the corresponding
state fields (the callers of `initialize` always bind it that way). -/
noncomputable def init_run (cfg : Config n) (is_r : Bool) (s : State n) : State n :=
  let mean := initialize_mean cfg is_r s
  let s1 := evaluate_fitness cfg mean s
  { s1 with
    mean := mean,
    y := cfg.fitness_function mean,
    best_so_far_y := cfg.fitness_function mean }

/-- The offspring sampled by `RES.iterate`:
`x = mean + sigma * rng.standard_normal(ndim)`. -/
def offspring (cfg : Config n) (s : State n) : Point n :=
  fun i => s.mean i + s.sigma * cfg.normal_draw s.n_generations i

/-- The offspring's fitness `y` produced by `RES.iterate`. -/
noncomputable def offspring_y (cfg : Config n) (s : State n) : ℝ :=
  cfg.fitness_function (offspring cfg s)

/-- The 1/5th-rule step-size update of `RES.optimize` line 153:
`sigma *= np.power(np.exp(float(y < best_so_far_y) - 1 / 5), eta_sigma)`
(real-power `^` is `Real.rpow`). -/
noncomputable def sigma_update (cfg : Config n) (sigma y best : ℝ) : ℝ :=
  sigma * Real.exp ((if y < best then (1 : ℝ) else 0) - 1 / 5) ^ cfg.eta_sigma

/-- Detector A of `restart_initialize` (`is_restart_1`): step-size
collapse, `sigma < sigma_threshold`. -/
def detectorA (cfg : Config n) (sigma : ℝ) : Prop :=
  sigma < cfg.sigma_threshold

/-- Detector B of `restart_initialize` (`is_restart_2`): fitness
stagnation.  `False` until the rolling history holds at least
`stagnation` entries; afterwards true iff
`history[-stagnation] - history[-1] < fitness_diff` (Python index
`history[-k]` is `history[len - k]` for the nonempty histories this
check is run on). -/
def detectorB (cfg : Config n) (history : List ℝ) : Prop :=
  cfg.stagnation ≤ history.length ∧
    history.getD (history.length - cfg.stagnation) 0 -
        history.getD (history.length - 1) 0 <
      cfg.fitness_diff

noncomputable instance decDetectorA (cfg : Config n) (sigma : ℝ) :
    Decidable (detectorA cfg sigma) :=
  inferInstanceAs (Decidable (sigma < cfg.sigma_threshold))

noncomputable instance decDetectorB (cfg : Config n) (history : List ℝ) :
    Decidable (detectorB cfg history) :=
  inferInstanceAs (Decidable (_ ∧ _))

/-- `RES.restart_initialize`: append the base-tracked best-so-far to the
rolling history, evaluate the two detectors, and on firing increment
`n_restart`, reset `sigma` to the construction-time backup
(`_sigma_bak`; modelled from the spec as the immutable construction-time
copy of the initial sigma, field `sigma0`), re-run `initialize` with the
restart flag, append the fresh fitness to the global trace, and reset
the rolling history to the singleton of the new best-so-far value. -/
noncomputable def restart_init (cfg : Config n) (s : State n) : State n :=
  let s0 := { s with fitness_list := s.fitness_list ++ [s.baseBest] }
  if detectorA cfg s0.sigma ∨ detectorB cfg s0.fitness_list then
    let s1 := { s0 with n_restart := s0.n_restart + 1, sigma := cfg.sigma0 }
    let s2 := init_run cfg true s1
    { s2 with
      fitness := s2.fitness ++ [s2.y],
      fitness_list := [s2.best_so_far_y] }
  else s0

/-- The condition under which `restart_initialize` fires on state `s`:
one of the detectors holds, detector B reading the rolling history with
the base best-so-far already appended. -/
def restartFires (cfg : Config n) (s : State n) : Prop :=
  detectorA cfg s.sigma ∨ detectorB cfg (s.fitness_list ++ [s.baseBest])

/-- The loop body of `RES.optimize` up to the termination check:
`x, y = self.iterate(args, mean)` followed by the conditional recording
of `y` in the global trace. -/
noncomputable def after_sampling (cfg : Config n) (s : State n) : State n :=
  let s1 := evaluate_fitness cfg (offspring cfg s) s
  { s1 with
    fitness :=
      if cfg.record_fitness then s1.fitness ++ [offspring_y cfg s] else s1.fitness }

/-- The loop body of `RES.optimize` after a negative termination check,
up to the restart check: the sigma update (line 153), the generation
counter increment, and the incumbent update
`if y < best_so_far_y: mean, best_so_far_y = x, y` (lines 156-157);
the local `y` keeps the offspring's fitness. -/
noncomputable def after_updates (cfg : Config n) (s : State n) : State n :=
  { after_sampling cfg s with
    sigma := sigma_update cfg s.sigma (offspring_y cfg s) s.best_so_far_y,
    n_generations := s.n_generations + 1,
    mean := if offspring_y cfg s < s.best_so_far_y then offspring cfg s else s.mean,
    best_so_far_y :=
      if offspring_y cfg s < s.best_so_far_y then offspring_y cfg s else s.best_so_far_y,
    y := offspring_y cfg s }

/-- One iteration of the `while True` loop of `RES.optimize`.  A state
whose loop has already exited is left unchanged.  Otherwise: sample and
evaluate the offspring, optionally record it, poll
`_check_terminations` (which reads the just-incremented evaluation
count) and on a positive answer exit the loop leaving sigma, mean and
`best_so_far_y` untouched; on a negative answer apply the sigma update,
the generation counter, the incumbent update, and finally the restart
check, the latter only when the `is_restart` policy gate is enabled. -/
noncomputable def generation_step (cfg : Config n) (s : State n) : State n :=
  if s.terminated then s
  else if cfg.check_terminations (after_sampling cfg s).n_function_evaluations then
    { after_sampling cfg s with y := offspring_y cfg s, terminated := true }
  else if cfg.is_restart then restart_init cfg (after_updates cfg s)
  else after_updates cfg s

/-- The state right after the prologue of `RES.optimize`:
`mean, y, best_so_far_y = self.initialize(args)` followed by
`fitness.append(y)`.  The base attribute `best_so_far_y` starts at
`np.inf` in the base class, so the first evaluation always adopts its
value; ℝ has no infinity, so the pre-run tracker is seeded with the
first fitness value, which yields the same tracker contents from the
first evaluation onwards. -/
noncomputable def start_state (cfg : Config n) : State n :=
  let pre : State n :=
    { mean := cfg.initial_mean
      y := 0
      best_so_far_y := 0
      sigma := cfg.sigma0
      n_generations := 0
      n_function_evaluations := 0
      n_restart := 0
      baseBest := cfg.fitness_function cfg.initial_mean
      fitness_list := []
      fitness := []
      terminated := false }
  let s1 := init_run cfg false pre
  { s1 with fitness := s1.fitness ++ [s1.y] }

/-- The run state after `g` iterations of the loop of `RES.optimize`. -/
noncomputable def run_state (cfg : Config n) : ℕ → State n
  | 0 => start_state cfg
  | g + 1 => generation_step cfg (run_state cfg g)

/-- `RES.__init__`: after the base constructor has stored the options,
default a missing `eta_sigma` to `1 / sqrt(ndim_problem + 1)` and
assert `eta_sigma > 0`; the assertion failure is modelled as an
`Except.error`.  No fitness evaluation is involved: the result depends
only on the dimensionality and the supplied option. -/
noncomputable def res_init_eta_sigma (ndim : ℕ) (eta_sigma : Option ℝ) : Except String ℝ :=
  let eta :=
    match eta_sigma with
    | none => 1 / Real.sqrt ((ndim : ℝ) + 1)
    | some e => e
  if 0 < eta then Except.ok eta else Except.error "eta_sigma should > 0"

/-- A one-dimensional run with the constant-zero objective, zero random
draws, a never-firing termination query, restarts disabled and fitness
recording off; used to instantiate the theorems on concrete inputs. -/
def cfgA : Config 1 where
  fitness_function := fun _ => 0
  initial_mean := fun _ => 0
  restart_mean := fun _ => fun _ => 5
  normal_draw := fun _ => fun _ => 0
  check_terminations := fun _ => false
  eta_sigma := 1
  sigma0 := 1
  sigma_threshold := 0
  stagnation := 5
  fitness_diff := 1
  is_restart := false
  record_fitness := false

/-- A one-dimensional run in which the objective reads the first
coordinate, the initial mean is the origin, restart points sit at 5, and
the stagnation window of 1 makes detector B fire on every generation-end
check; restarts are enabled. -/
def cfgR : Config 1 where
  fitness_function := fun p => p 0
  initial_mean := fun _ => 0
  restart_mean := fun _ => fun _ => 5
  normal_draw := fun _ => fun _ => 0
  check_terminations := fun _ => false
  eta_sigma := 1
  sigma0 := 1
  sigma_threshold := 0
  stagnation := 1
  fitness_diff := 1
  is_restart := true
  record_fitness := false

/-- Like `cfgA` but the termination query fires immediately and fitness
recording is on. -/
def cfgT : Config 1 :=
  { cfgA with check_terminations := fun _ => true, record_fitness := true }

/-- A concrete mid-run state: one evaluation spent, nothing terminated. -/
def sW : State 1 where
  mean := fun _ => 0
  y := 0
  best_so_far_y := 0
  sigma := 1
  n_generations := 0
  n_function_evaluations := 1
  n_restart := 0
  baseBest := 0
  fitness_list := []
  fitness := [0]
  terminated := false

/-! Projection lemmas: how each phase of the loop body acts on the
individual state fields.  All are definitional. -/

@[simp] lemma after_sampling_n_function_evaluations (cfg : Config n) (s : State n) :
    (after_sampling cfg s).n_function_evaluations = s.n_function_evaluations + 1 := rfl

@[simp] lemma after_sampling_mean (cfg : Config n) (s : State n) :
    (after_sampling cfg s).mean = s.mean := rfl

@[simp] lemma after_sampling_best_so_far_y (cfg : Config n) (s : State n) :
    (after_sampling cfg s).best_so_far_y = s.best_so_far_y := rfl

@[simp] lemma after_sampling_sigma (cfg : Config n) (s : State n) :
    (after_sampling cfg s).sigma = s.sigma := rfl

@[simp] lemma after_sampling_n_generations (cfg : Config n) (s : State n) :
    (after_sampling cfg s).n_generations = s.n_generations := rfl

@[simp] lemma after_sampling_n_restart (cfg : Config n) (s : State n) :
    (after_sampling cfg s).n_restart = s.n_restart := rfl

@[simp] lemma after_sampling_fitness_list (cfg : Config n) (s : State n) :
    (after_sampling cfg s).fitness_list = s.fitness_list := rfl

@[simp] lemma after_sampling_terminated (cfg : Config n) (s : State n) :
    (after_sampling cfg s).terminated = s.terminated := rfl

@[simp] lemma after_sampling_fitness (cfg : Config n) (s : State n) :
    (after_sampling cfg s).fitness =
      if cfg.record_fitness then s.fitness ++ [offspring_y cfg s] else s.fitness := rfl

@[simp] lemma after_updates_sigma (cfg : Config n) (s : State n) :
    (after_updates cfg s).sigma =
      sigma_update cfg s.sigma (offspring_y cfg s) s.best_so_far_y := rfl

@[simp] lemma after_updates_n_generations (cfg : Config n) (s : State n) :
    (after_updates cfg s).n_generations = s.n_generations + 1 := rfl

@[simp] lemma after_updates_n_function_evaluations (cfg : Config n) (s : State n) :
    (after_updates cfg s).n_function_evaluations = s.n_function_evaluations + 1 := rfl

@[simp] lemma after_updates_n_restart (cfg : Config n) (s : State n) :
    (after_updates cfg s).n_restart = s.n_restart := rfl

@[simp] lemma after_updates_fitness_list (cfg : Config n) (s : State n) :
    (after_updates cfg s).fitness_list = s.fitness_list := rfl

@[simp] lemma after_updates_terminated (cfg : Config n) (s : State n) :
    (after_updates cfg s).terminated = s.terminated := rfl

@[simp] lemma after_updates_mean (cfg : Config n) (s : State n) :
    (after_updates cfg s).mean =
      if offspring_y cfg s < s.best_so_far_y then offspring cfg s else s.mean := rfl

@[simp] lemma after_updates_best_so_far_y (cfg : Config n) (s : State n) :
    (after_updates cfg s).best_so_far_y =
      if offspring_y cfg s < s.best_so_far_y then offspring_y cfg s
      else s.best_so_far_y := rfl

@[simp] lemma after_updates_y (cfg : Config n) (s : State n) :
    (after_updates cfg s).y = offspring_y cfg s := rfl

@[simp] lemma after_updates_baseBest (cfg : Config n) (s : State n) :
    (after_updates cfg s).baseBest =
      if offspring_y cfg s < s.baseBest then offspring_y cfg s else s.baseBest := rfl

@[simp] lemma init_run_n_restart (cfg : Config n) (b : Bool) (s : State n) :
    (init_run cfg b s).n_restart = s.n_restart := rfl

@[simp] lemma init_run_n_generations (cfg : Config n) (b : Bool) (s : State n) :
    (init_run cfg b s).n_generations = s.n_generations := rfl

@[simp] lemma init_run_n_function_evaluations (cfg : Config n) (b : Bool) (s : State n) :
    (init_run cfg b s).n_function_evaluations = s.n_function_evaluations + 1 := rfl

@[simp] lemma init_run_sigma (cfg : Config n) (b : Bool) (s : State n) :
    (init_run cfg b s).sigma = s.sigma := rfl

@[simp] lemma init_run_fitness (cfg : Config n) (b : Bool) (s : State n) :
    (init_run cfg b s).fitness = s.fitness := rfl

@[simp] lemma init_run_fitness_list (cfg : Config n) (b : Bool) (s : State n) :
    (init_run cfg b s).fitness_list = s.fitness_list := rfl

@[simp] lemma init_run_terminated (cfg : Config n) (b : Bool) (s : State n) :
    (init_run cfg b s).terminated = s.terminated := rfl

@[simp] lemma init_run_mean (cfg : Config n) (b : Bool) (s : State n) :
    (init_run cfg b s).mean = initialize_mean cfg b s := rfl

@[simp] lemma init_run_y (cfg : Config n) (b : Bool) (s : State n) :
    (init_run cfg b s).y = cfg.fitness_function (initialize_mean cfg b s) := rfl

@[simp] lemma init_run_best_so_far_y (cfg : Config n) (b : Bool) (s : State n) :
    (init_run cfg b s).best_so_far_y =
      cfg.fitness_function (initialize_mean cfg b s) := rfl

/-! Branch lemmas for one loop iteration. -/

lemma generation_step_of_terminated (cfg : Config n) (s : State n)
    (h : s.terminated = true) : generation_step cfg s = s := by
  simp [generation_step, h]

lemma generation_step_stop (cfg : Config n) (s : State n)
    (hterm : s.terminated = false)
    (hstop : cfg.check_terminations (s.n_function_evaluations + 1) = true) :
    generation_step cfg s =
      { after_sampling cfg s with y := offspring_y cfg s, terminated := true } := by
  simp [generation_step, hterm, hstop]

lemma generation_step_go_norestart (cfg : Config n) (s : State n)
    (hterm : s.terminated = false)
    (hcont : cfg.check_terminations (s.n_function_evaluations + 1) = false)
    (hgate : cfg.is_restart = false) :
    generation_step cfg s = after_updates cfg s := by
  simp [generation_step, hterm, hcont, hgate]

lemma generation_step_go_restart (cfg : Config n) (s : State n)
    (hterm : s.terminated = false)
    (hcont : cfg.check_terminations (s.n_function_evaluations + 1) = false)
    (hgate : cfg.is_restart = true) :
    generation_step cfg s = restart_init cfg (after_updates cfg s) := by
  simp [generation_step, hterm, hcont, hgate]

/-! Branch lemmas for the restart check. -/

lemma restart_init_of_not_fires (cfg : Config n) (s : State n)
    (h : ¬ restartFires cfg s) :
    restart_init cfg s = { s with fitness_list := s.fitness_list ++ [s.baseBest] } := by
  have h' : ¬ (detectorA cfg s.sigma ∨ detectorB cfg (s.fitness_list ++ [s.baseBest])) := h
  simp only [restart_init]
  rw [if_neg h']

lemma restart_init_of_fires (cfg : Config n) (s : State n)
    (h : restartFires cfg s) :
    restart_init cfg s =
      { init_run cfg true
          { s with
            fitness_list := s.fitness_list ++ [s.baseBest],
            n_restart := s.n_restart + 1,
            sigma := cfg.sigma0 } with
        fitness :=
          s.fitness ++ [cfg.fitness_function (cfg.restart_mean (s.n_restart + 1))],
        fitness_list :=
          [cfg.fitness_function (cfg.restart_mean (s.n_restart + 1))] } := by
  have h' : detectorA cfg s.sigma ∨ detectorB cfg (s.fitness_list ++ [s.baseBest]) := h
  simp only [restart_init]
  rw [if_pos h']
  rfl

/-- Claim C1: in every non-terminating generation the step-size update of
line 153 is applied exactly once, as
`sigma := sigma * exp(indicator(y < best_so_far_y) - 1/5) ^ eta_sigma`:
whenever no restart reset follows (gate disabled or detectors quiet) the
end-of-generation sigma is exactly one application of `sigma_update`,
and `sigma_update` multiplies sigma by `exp(0.8 * eta_sigma)` on strict
improvement and by `exp(-0.2 * eta_sigma)` otherwise. -/
theorem sigma_update_per_generation (cfg : Config n) (s : State n)
    (hterm : s.terminated = false)
    (hcont : cfg.check_terminations (s.n_function_evaluations + 1) = false) :
    (cfg.is_restart = false ∨ ¬ restartFires cfg (after_updates cfg s) →
      (generation_step cfg s).sigma =
        sigma_update cfg s.sigma (offspring_y cfg s) s.best_so_far_y) ∧
    (offspring_y cfg s < s.best_so_far_y →
      sigma_update cfg s.sigma (offspring_y cfg s) s.best_so_far_y =
        s.sigma * Real.exp (0.8 * cfg.eta_sigma)) ∧
    (¬ offspring_y cfg s < s.best_so_far_y →
      sigma_update cfg s.sigma (offspring_y cfg s) s.best_so_far_y =
        s.sigma * Real.exp (-0.2 * cfg.eta_sigma)) := by
  refine ⟨fun hno => ?_, fun himp => ?_, fun himp => ?_⟩
  · by_cases hgate : cfg.is_restart = true
    · have hnf : ¬ restartFires cfg (after_updates cfg s) := by
        rcases hno with hg | hnf
        · rw [hgate] at hg
          exact absurd hg (by simp)
        · exact hnf
      rw [generation_step_go_restart cfg s hterm hcont hgate,
        restart_init_of_not_fires _ _ hnf]
      simp
    · have hg : cfg.is_restart = false := by simpa using hgate
      rw [generation_step_go_norestart cfg s hterm hcont hg, after_updates_sigma]
  · simp only [sigma_update, if_pos himp, ← Real.exp_mul]
    norm_num
  · simp only [sigma_update, if_neg himp, ← Real.exp_mul]
    norm_num

theorem sigma_update_per_generation_witness :
    (generation_step cfgA sW).sigma =
        sigma_update cfgA sW.sigma (offspring_y cfgA sW) sW.best_so_far_y ∧
      sigma_update cfgA sW.sigma (offspring_y cfgA sW) sW.best_so_far_y =
        sW.sigma * Real.exp (-0.2 * cfgA.eta_sigma) := by
  have h := sigma_update_per_generation cfgA sW rfl rfl
  exact ⟨h.1 (Or.inl rfl), h.2.2 (by simp [offspring_y, offspring, cfgA, sW])⟩

/-- Claim C2: whenever no restart replaces the incumbent afterwards
(gate disabled or detectors quiet), a non-terminating generation
replaces the incumbent exactly on strict improvement
(`y < best_so_far_y`), adopting `x` and `y`; otherwise the incumbent is
left unchanged (ties included) and `x` is discarded. -/
theorem incumbent_update_rule (cfg : Config n) (s : State n)
    (hterm : s.terminated = false)
    (hcont : cfg.check_terminations (s.n_function_evaluations + 1) = false)
    (hno : cfg.is_restart = false ∨ ¬ restartFires cfg (after_updates cfg s)) :
    (offspring_y cfg s < s.best_so_far_y →
      (generation_step cfg s).mean = offspring cfg s ∧
        (generation_step cfg s).best_so_far_y = offspring_y cfg s) ∧
    (¬ offspring_y cfg s < s.best_so_far_y →
      (generation_step cfg s).mean = s.mean ∧
        (generation_step cfg s).best_so_far_y = s.best_so_far_y) := by
  have hstep :
      (generation_step cfg s).mean = (after_updates cfg s).mean ∧
        (generation_step cfg s).best_so_far_y =
          (after_updates cfg s).best_so_far_y := by
    by_cases hgate : cfg.is_restart = true
    · have hnf : ¬ restartFires cfg (after_updates cfg s) := by
        rcases hno with hg | hnf
        · rw [hgate] at hg
          exact absurd hg (by simp)
        · exact hnf
      rw [generation_step_go_restart cfg s hterm hcont hgate,
        restart_init_of_not_fires _ _ hnf]
      exact ⟨rfl, rfl⟩
    · have hg : cfg.is_restart = false := by simpa using hgate
      rw [generation_step_go_norestart cfg s hterm hcont hg]
      exact ⟨rfl, rfl⟩
  rw [hstep.1, hstep.2]
  refine ⟨fun h => ?_, fun h => ?_⟩ <;> simp [h]

theorem incumbent_update_rule_witness :
    (generation_step cfgA sW).mean = sW.mean ∧
      (generation_step cfgA sW).best_so_far_y = sW.best_so_far_y := by
  have h := incumbent_update_rule cfgA sW rfl rfl (Or.inl rfl)
  exact h.2 (by simp [offspring_y, offspring, cfgA, sW])

/-- Claim C8: the termination check is polled after the offspring has
been sampled, recorded (when recording is enabled) and evaluated, but
before the sigma update and before the incumbent update: a terminating
generation leaves sigma, the mean, `best_so_far_y`, the generation
counter and the restart counter untouched, and appends the offspring's
fitness to the trace exactly when recording is enabled. -/
theorem termination_check_before_updates (cfg : Config n) (s : State n)
    (hterm : s.terminated = false)
    (hstop : cfg.check_terminations (s.n_function_evaluations + 1) = true) :
    (generation_step cfg s).terminated = true ∧
    (generation_step cfg s).sigma = s.sigma ∧
    (generation_step cfg s).mean = s.mean ∧
    (generation_step cfg s).best_so_far_y = s.best_so_far_y ∧
    (generation_step cfg s).n_generations = s.n_generations ∧
    (generation_step cfg s).n_restart = s.n_restart ∧
    (cfg.record_fitness = true →
      (generation_step cfg s).fitness = s.fitness ++ [offspring_y cfg s]) ∧
    (cfg.record_fitness = false → (generation_step cfg s).fitness = s.fitness) := by
  rw [generation_step_stop cfg s hterm hstop]
  refine ⟨rfl, rfl, rfl, rfl, rfl, rfl, fun h => ?_, fun h => ?_⟩ <;> simp [h]

theorem termination_check_before_updates_witness :
    (generation_step cfgT sW).terminated = true ∧
      (generation_step cfgT sW).sigma = sW.sigma ∧
      (generation_step cfgT sW).best_so_far_y = sW.best_so_far_y ∧
      (generation_step cfgT sW).fitness = sW.fitness ++ [offspring_y cfgT sW] := by
  have h := termination_check_before_updates cfgT sW rfl rfl
  exact ⟨h.1, h.2.1, h.2.2.2.1, h.2.2.2.2.2.2.1 rfl⟩

/-- Claim C5: in a non-terminating generation the restart counter is
incremented (i.e. a restart fires) exactly when the `is_restart` policy
gate is enabled and, on the state after the sigma and incumbent updates,
detector A (`sigma < sigma_threshold`) or detector B (at least
`stagnation` history entries and
`history[-stagnation] - history[-1] < fitness_diff`, the history having
just received the current best-so-far) holds. -/
theorem restart_trigger_iff (cfg : Config n) (s : State n)
    (hterm : s.terminated = false)
    (hcont : cfg.check_terminations (s.n_function_evaluations + 1) = false) :
    (generation_step cfg s).n_restart = s.n_restart + 1 ↔
      cfg.is_restart = true ∧ restartFires cfg (after_updates cfg s) := by
  by_cases hgate : cfg.is_restart = true
  · rw [generation_step_go_restart cfg s hterm hcont hgate]
    by_cases hf : restartFires cfg (after_updates cfg s)
    · rw [restart_init_of_fires _ _ hf]
      simp [hgate, hf]
    · rw [restart_init_of_not_fires _ _ hf]
      simp [hgate, hf]
  · have hg : cfg.is_restart = false := by simpa using hgate
    rw [generation_step_go_norestart cfg s hterm hcont hg]
    simp [hg]

theorem restart_trigger_iff_witness :
    ((generation_step cfgA sW).n_restart = sW.n_restart + 1 ↔
      cfgA.is_restart = true ∧ restartFires cfgA (after_updates cfgA sW)) :=
  restart_trigger_iff cfgA sW rfl rfl

/-- Claim C6: whenever the restart check fires, the restart counter is
incremented by one, sigma is reset to the construction-time initial
value `sigma0` (never to an intermediate value: `sigma0` is an immutable
configuration field), `initialize` is re-run with the restart flag set
(the new mean is the fresh restart draw and its fitness is evaluated,
costing one evaluation), the fresh fitness reading is appended to the
global trace, and the rolling history is reset to the singleton of the
new best-so-far value. -/
theorem restart_execution_effects (cfg : Config n) (s : State n)
    (hf : restartFires cfg s) :
    (restart_init cfg s).n_restart = s.n_restart + 1 ∧
    (restart_init cfg s).sigma = cfg.sigma0 ∧
    (restart_init cfg s).mean = cfg.restart_mean (s.n_restart + 1) ∧
    (restart_init cfg s).y =
      cfg.fitness_function (cfg.restart_mean (s.n_restart + 1)) ∧
    (restart_init cfg s).best_so_far_y = (restart_init cfg s).y ∧
    (restart_init cfg s).n_function_evaluations = s.n_function_evaluations + 1 ∧
    (restart_init cfg s).fitness = s.fitness ++ [(restart_init cfg s).y] ∧
    (restart_init cfg s).fitness_list = [(restart_init cfg s).best_so_far_y] := by
  rw [restart_init_of_fires cfg s hf]
  exact ⟨rfl, rfl, rfl, rfl, rfl, rfl, rfl, rfl⟩

theorem restart_execution_effects_witness :
    (restart_init cfgR sW).n_restart = sW.n_restart + 1 ∧
      (restart_init cfgR sW).sigma = cfgR.sigma0 ∧
      (restart_init cfgR sW).n_function_evaluations =
        sW.n_function_evaluations + 1 ∧
      (restart_init cfgR sW).fitness_list =
        [(restart_init cfgR sW).best_so_far_y] := by
  have hf : restartFires cfgR sW := by
    refine Or.inr ?_
    constructor
    · simp [detectorB, sW, cfgR]
    · simp [detectorB, sW, cfgR]
  have h := restart_execution_effects cfgR sW hf
  exact ⟨h.1, h.2.1, h.2.2.2.2.2.1, h.2.2.2.2.2.2.2⟩

/-- Claim C7: on every generation-end restart check (the check runs when
the policy gate is enabled) the base-tracked best-so-far is appended to
the rolling history, whether or not the restart fires: without a firing
the history is exactly the old history plus that appended value, and the
reset to a singleton happens only on a firing. -/
theorem history_append_every_check (cfg : Config n) (s : State n)
    (hterm : s.terminated = false)
    (hcont : cfg.check_terminations (s.n_function_evaluations + 1) = false)
    (hgate : cfg.is_restart = true) :
    (¬ restartFires cfg (after_updates cfg s) →
      (generation_step cfg s).fitness_list =
        s.fitness_list ++ [(after_updates cfg s).baseBest]) ∧
    (restartFires cfg (after_updates cfg s) →
      (generation_step cfg s).fitness_list =
        [(generation_step cfg s).best_so_far_y]) := by
  rw [generation_step_go_restart cfg s hterm hcont hgate]
  refine ⟨fun h => ?_, fun h => ?_⟩
  · rw [restart_init_of_not_fires _ _ h]
    simp
  · rw [restart_init_of_fires _ _ h]
    rfl

theorem history_append_every_check_witness :
    (generation_step cfgR sW).fitness_list =
      [(generation_step cfgR sW).best_so_far_y] := by
  have hf : restartFires cfgR (after_updates cfgR sW) := by
    refine Or.inr ?_
    constructor
    · simp [detectorB, sW, cfgR]
    · simp [detectorB, sW, cfgR]
  exact (history_append_every_check cfgR sW rfl rfl rfl).2 hf

/-- Claim C10: a restart check on which neither detector holds leaves
the incumbent triple (`mean`, `y`, `best_so_far_y`), sigma, the restart
counter, the evaluation counter, the global trace, the generation
counter, the base best tracker and the loop flag unchanged; its only
state change is appending the base-tracked best-so-far to the rolling
history. -/
theorem restart_check_frame (cfg : Config n) (s : State n)
    (hnf : ¬ restartFires cfg s) :
    (restart_init cfg s).mean = s.mean ∧
    (restart_init cfg s).y = s.y ∧
    (restart_init cfg s).best_so_far_y = s.best_so_far_y ∧
    (restart_init cfg s).sigma = s.sigma ∧
    (restart_init cfg s).n_restart = s.n_restart ∧
    (restart_init cfg s).n_function_evaluations = s.n_function_evaluations ∧
    (restart_init cfg s).fitness = s.fitness ∧
    (restart_init cfg s).n_generations = s.n_generations ∧
    (restart_init cfg s).baseBest = s.baseBest ∧
    (restart_init cfg s).terminated = s.terminated ∧
    (restart_init cfg s).fitness_list = s.fitness_list ++ [s.baseBest] := by
  rw [restart_init_of_not_fires cfg s hnf]
  exact ⟨rfl, rfl, rfl, rfl, rfl, rfl, rfl, rfl, rfl, rfl, rfl⟩

theorem restart_check_frame_witness :
    (restart_init cfgA sW).sigma = sW.sigma ∧
      (restart_init cfgA sW).n_restart = sW.n_restart ∧
      (restart_init cfgA sW).n_function_evaluations =
        sW.n_function_evaluations ∧
      (restart_init cfgA sW).fitness = sW.fitness ∧
      (restart_init cfgA sW).fitness_list =
        sW.fitness_list ++ [sW.baseBest] := by
  have hnf : ¬ restartFires cfgA sW := by
    rintro (ha | hb)
    · exact absurd ha (by norm_num [detectorA, cfgA, sW])
    · exact absurd hb.1 (by norm_num [sW, cfgA])
  have h := restart_check_frame cfgA sW hnf
  exact ⟨h.2.2.2.1, h.2.2.2.2.1, h.2.2.2.2.2.1, h.2.2.2.2.2.2.1,
    h.2.2.2.2.2.2.2.2.2.2⟩

/-- Claim C9: at construction, a missing `eta_sigma` defaults to
`1 / sqrt(ndim + 1)`; supplying a non-positive `eta_sigma` makes the
constructor fail with a configuration error; and any successful
construction yields a strictly positive learning rate.  The constructor
takes no fitness function, so no fitness evaluation can occur. -/
theorem eta_sigma_contract (ndim : ℕ) (eta : Option ℝ) :
    res_init_eta_sigma ndim none =
        Except.ok (1 / Real.sqrt ((ndim : ℝ) + 1)) ∧
    (∀ e : ℝ, e ≤ 0 →
      res_init_eta_sigma ndim (some e) =
        Except.error "eta_sigma should > 0") ∧
    (∀ r : ℝ, res_init_eta_sigma ndim eta = Except.ok r → 0 < r) := by
  have hpos : 0 < 1 / Real.sqrt ((ndim : ℝ) + 1) := by positivity
  refine ⟨?_, fun e he => ?_, fun r hr => ?_⟩
  · simp only [res_init_eta_sigma]
    rw [if_pos hpos]
  · simp only [res_init_eta_sigma]
    rw [if_neg (not_lt.mpr he)]
  · revert hr
    cases eta with
    | none =>
      simp only [res_init_eta_sigma]
      rw [if_pos hpos]
      intro hr
      injection hr with h
      exact h ▸ hpos
    | some e =>
      simp only [res_init_eta_sigma]
      by_cases hp : 0 < e
      · rw [if_pos hp]
        intro hr
        injection hr with h
        exact h ▸ hp
      · rw [if_neg hp]
        intro hr
        exact absurd hr (by simp)

theorem eta_sigma_contract_witness :
    res_init_eta_sigma 2 none =
        Except.ok (1 / Real.sqrt (((2 : ℕ) : ℝ) + 1)) ∧
      res_init_eta_sigma 2 (some (-1)) =
        Except.error "eta_sigma should > 0" :=
  ⟨(eta_sigma_contract 2 none).1,
    (eta_sigma_contract 2 none).2.1 (-1) (by norm_num)⟩

/-- Claim C3, amended: before termination the evaluation count equals
one (spent at initialization) plus one per completed generation plus one
per fired restart, each restart re-initialization costing one extra
evaluation. -/
theorem evaluation_count_invariant (cfg : Config n) (g : ℕ)
    (h : (run_state cfg g).terminated = false) :
    (run_state cfg g).n_function_evaluations =
      1 + (run_state cfg g).n_generations + (run_state cfg g).n_restart := by
  induction g with
  | zero =>
    simp [run_state, start_state, init_run, evaluate_fitness]
  | succ g ih =>
    by_cases hterm : (run_state cfg g).terminated = true
    · rw [run_state, generation_step_of_terminated _ _ hterm] at h
      exact absurd h (by simp [hterm])
    · have hterm' : (run_state cfg g).terminated = false := by
        simpa using hterm
      specialize ih hterm'
      by_cases hstop :
          cfg.check_terminations
            ((run_state cfg g).n_function_evaluations + 1) = true
      · rw [run_state, generation_step_stop _ _ hterm' hstop] at h
        exact absurd h (by simp)
      · have hcont :
            cfg.check_terminations
              ((run_state cfg g).n_function_evaluations + 1) = false := by
          simpa using hstop
        by_cases hgate : cfg.is_restart = true
        · rw [run_state, generation_step_go_restart _ _ hterm' hcont hgate]
          by_cases hf : restartFires cfg (after_updates cfg (run_state cfg g))
          · rw [restart_init_of_fires _ _ hf]
            simp only [init_run_n_function_evaluations, init_run_n_restart,
              init_run_n_generations, after_updates_n_function_evaluations,
              after_updates_n_restart, after_updates_n_generations]
            omega
          · rw [restart_init_of_not_fires _ _ hf]
            simp only [after_updates_n_function_evaluations,
              after_updates_n_restart, after_updates_n_generations]
            omega
        · have hg : cfg.is_restart = false := by simpa using hgate
          rw [run_state, generation_step_go_norestart _ _ hterm' hcont hg]
          simp only [after_updates_n_function_evaluations,
            after_updates_n_restart, after_updates_n_generations]
          omega

theorem evaluation_count_invariant_witness :
    (run_state cfgA 1).terminated = false ∧
      (run_state cfgA 1).n_function_evaluations =
        1 + (run_state cfgA 1).n_generations + (run_state cfgA 1).n_restart := by
  have hterm : (run_state cfgA 1).terminated = false := by
    rw [run_state, generation_step_go_norestart _ _ rfl rfl rfl]
    simp [run_state, start_state, init_run, evaluate_fitness]
  exact ⟨hterm, evaluation_count_invariant cfgA 1 hterm⟩

/-- Claim C4, amended: `best_so_far_y` never worsens over a generation
in which no restart fires (equivalently, in which the restart counter
does not change); a firing restart resets it to the fitness of the
fresh restart point, which may exceed the previous value. -/
theorem best_nonincreasing_no_restart (cfg : Config n) (s : State n)
    (hterm : s.terminated = false)
    (hres : (generation_step cfg s).n_restart = s.n_restart) :
    (generation_step cfg s).best_so_far_y ≤ s.best_so_far_y := by
  by_cases hstop :
      cfg.check_terminations (s.n_function_evaluations + 1) = true
  · rw [generation_step_stop _ _ hterm hstop]
    exact le_refl _
  · have hcont :
        cfg.check_terminations (s.n_function_evaluations + 1) = false := by
      simpa using hstop
    have hupd :
        (after_updates cfg s).best_so_far_y ≤ s.best_so_far_y := by
      rw [after_updates_best_so_far_y]
      by_cases himp : offspring_y cfg s < s.best_so_far_y
      · rw [if_pos himp]
        exact le_of_lt himp
      · rw [if_neg himp]
    by_cases hgate : cfg.is_restart = true
    · by_cases hf : restartFires cfg (after_updates cfg s)
      · exfalso
        rw [generation_step_go_restart _ _ hterm hcont hgate,
          restart_init_of_fires _ _ hf] at hres
        simp at hres
      · rw [generation_step_go_restart _ _ hterm hcont hgate,
          restart_init_of_not_fires _ _ hf]
        exact hupd
    · have hg : cfg.is_restart = false := by simpa using hgate
      rw [generation_step_go_norestart _ _ hterm hcont hg]
      exact hupd

theorem best_nonincreasing_no_restart_witness :
    (generation_step cfgA sW).n_restart = sW.n_restart ∧
      (generation_step cfgA sW).best_so_far_y ≤ sW.best_so_far_y := by
  have hres : (generation_step cfgA sW).n_restart = sW.n_restart := by
    rw [generation_step_go_norestart _ _ rfl rfl rfl]
    simp
  exact ⟨hres, best_nonincreasing_no_restart cfgA sW rfl hres⟩

/-! A concrete run of `cfgR` in which the very first generation fires a
restart: detector B holds because the stagnation window is 1. -/

lemma cfgR_fires_gen1 :
    restartFires cfgR (after_updates cfgR (run_state cfgR 0)) := by
  have hfl : (after_updates cfgR (run_state cfgR 0)).fitness_list = [] := rfl
  refine Or.inr ?_
  rw [hfl]
  constructor
  · norm_num [cfgR]
  · simp [cfgR]

lemma run_state_cfgR_one :
    run_state cfgR 1 =
      restart_init cfgR (after_updates cfgR (run_state cfgR 0)) := by
  have h : run_state cfgR 1 = generation_step cfgR (run_state cfgR 0) := rfl
  rw [h, generation_step_go_restart _ _ rfl rfl rfl]

/-- Claim C3 as stated is false: in the first generation of the `cfgR`
run a restart fires, whose re-initialization spends a second evaluation,
so before termination the evaluation count is 3 while one plus the
number of completed generations is 2. -/
theorem evaluation_count_claim_cex :
    (run_state cfgR 1).terminated = false ∧
      (run_state cfgR 1).n_function_evaluations = 3 ∧
      (run_state cfgR 1).n_generations = 1 ∧
      ¬ ((run_state cfgR 1).n_function_evaluations =
          1 + (run_state cfgR 1).n_generations) := by
  have e1 : (run_state cfgR 1).n_function_evaluations = 3 := by
    rw [run_state_cfgR_one, restart_init_of_fires _ _ cfgR_fires_gen1]
    rfl
  have e2 : (run_state cfgR 1).n_generations = 1 := by
    rw [run_state_cfgR_one, restart_init_of_fires _ _ cfgR_fires_gen1]
    rfl
  have e3 : (run_state cfgR 1).terminated = false := by
    rw [run_state_cfgR_one, restart_init_of_fires _ _ cfgR_fires_gen1]
    rfl
  refine ⟨e3, e1, e2, ?_⟩
  rw [e1, e2]
  norm_num

/-- Claim C4 as stated is false: across the restart fired in the first
generation of the `cfgR` run, `best_so_far_y` rises from 0 to 5, the
fitness of the fresh (worse) restart point. -/
theorem best_nonincreasing_claim_cex :
    (run_state cfgR 0).terminated = false ∧
      (run_state cfgR 1).terminated = false ∧
      (run_state cfgR 0).best_so_far_y = 0 ∧
      (run_state cfgR 1).best_so_far_y = 5 ∧
      ¬ ((run_state cfgR 1).best_so_far_y ≤
          (run_state cfgR 0).best_so_far_y) := by
  have e0 : (run_state cfgR 0).best_so_far_y = 0 := rfl
  have e1 : (run_state cfgR 1).best_so_far_y = 5 := by
    rw [run_state_cfgR_one, restart_init_of_fires _ _ cfgR_fires_gen1]
    rfl
  have e3 : (run_state cfgR 1).terminated = false := by
    rw [run_state_cfgR_one, restart_init_of_fires _ _ cfgR_fires_gen1]
    rfl
  refine ⟨rfl, e3, e0, e1, ?_⟩
  rw [e0, e1]
  norm_num

end RES
